import Mathlib

/-!
# Telemetry plugin (`ets_plugin/src/telemetry.cpp`)

A shallow embedding of the telemetry callbacks: the frame-start timestamp
tracker, the pause gate, the frame-end emitter and the channel store handlers.

* Unsigned 64-bit timestamps are natural numbers with explicit reduction
  modulo `2^64`.
* The module-level variables (`log_file`, `output_paused`, `print_header`,
  `last_timestamp`, `telemetry`) are gathered in one record, `Globals`, which
  every handler takes and returns.
* Side effects (each `vfprintf`/`fprintf` call on the log file with its format
  string and arguments, the call of `sendOdometry`, the call of `spin_some`)
  are returned as a list, in program order.
* `float` and `double` are the two carrier types of a `FloatModel`; the code
  only multiplies by `360.0f`, stores `0.0f`, promotes to `double` in variadic
  calls and prints with `%f`, and those are the operations of the interface.
* A failed `assert` aborts the process: the handler returns `none`.
-/

namespace Telemetry

/-! ## Machine numbers -/

/-- The C types `float` and `double` with the operations the plugin uses. -/
structure FloatModel where
  /-- The type `float`. -/
  F32 : Type
  /-- The type `double`. -/
  F64 : Type
  /-- Multiplication of two `float`s. -/
  mul32 : F32 → F32 → F32
  /-- The literal `360.0f`. -/
  lit_360 : F32
  /-- The literal `0.0f`. -/
  zero32 : F32
  /-- The `double` whose bytes are all zero. -/
  zero64 : F64
  /-- Default argument promotion of a `float` passed to a variadic function. -/
  promote : F32 → F64
  /-- The text `printf` produces for the conversion `%f`. -/
  fmt_f : F64 → String

/-- Number of values of `scs_timestamp_t` (an unsigned 64-bit integer). -/
def U64_MOD : Nat := 2 ^ 64

/-- Unsigned 64-bit addition. -/
def u64_add (a b : Nat) : Nat := (a + b) % U64_MOD

/-- Unsigned 64-bit subtraction. -/
def u64_sub (a b : Nat) : Nat := (a + U64_MOD - b) % U64_MOD

/-- The value `static_cast<scs_timestamp_t>(-1)`: no frame seen yet. -/
def NEVER_SEEN : Nat := U64_MOD - 1

/-- Modelled from the spec: the SDK header defining
`SCS_TELEMETRY_FRAME_START_FLAG_timer_restart` is not among the sources; the
spec calls it the restart flag of a frame-start notification. It is one bit of
the 32-bit `flags` word, bit 0 in the published SDK. -/
def SCS_TELEMETRY_FRAME_START_FLAG_timer_restart : Nat := 1

/-! ## SDK value types -/

/-- SDK type `scs_value_fvector_t`: three `float`s. -/
structure scs_value_fvector_t (M : FloatModel) where
  x : M.F32
  y : M.F32
  z : M.F32

/-- SDK type `scs_value_dvector_t`: three `double`s. -/
structure scs_value_dvector_t (M : FloatModel) where
  x : M.F64
  y : M.F64
  z : M.F64

/-- SDK type `scs_value_euler_t`: orientation in turns. -/
structure scs_value_euler_t (M : FloatModel) where
  heading : M.F32
  pitch : M.F32
  roll : M.F32

/-- SDK type `scs_value_fplacement_t`. -/
structure scs_value_fplacement_t (M : FloatModel) where
  position : scs_value_fvector_t M
  orientation : scs_value_euler_t M

/-- SDK type `scs_value_dplacement_t`. -/
structure scs_value_dplacement_t (M : FloatModel) where
  position : scs_value_dvector_t M
  orientation : scs_value_euler_t M

/-- SDK type `scs_value_t`: a type tag with the matching union member. The
constructor `other` stands for every tag the plugin has no `case` for. -/
inductive scs_value_t (M : FloatModel) where
  | invalid
  | bool (value : Bool)
  | s32 (value : Int)
  | u32 (value : Nat)
  | u64 (value : Nat)
  | float (value : M.F32)
  | double (value : M.F64)
  | fvector (value : scs_value_fvector_t M)
  | dvector (value : scs_value_dvector_t M)
  | euler (value : scs_value_euler_t M)
  | fplacement (value : scs_value_fplacement_t M)
  | dplacement (value : scs_value_dplacement_t M)
  | string (value : String)
  | other (tag : Nat)

/-- SDK type `scs_telemetry_frame_start_t`. -/
structure scs_telemetry_frame_start_t where
  flags : Nat
  render_time : Nat
  simulation_time : Nat
  paused_simulation_time : Nat

/-- SDK type `scs_named_value_t`. The field `index` is `none` when the C field
equals `SCS_U32_NIL`. -/
structure scs_named_value_t (M : FloatModel) where
  name : String
  index : Option Nat
  value : scs_value_t M

/-- SDK type `scs_telemetry_configuration_t`; `attributes` lists the entries
before the terminating entry whose name is null. -/
structure scs_telemetry_configuration_t (M : FloatModel) where
  id : String
  attributes : List (scs_named_value_t M)

/-! ## Module state -/

/-- The struct `telemetry_state_t`. -/
structure telemetry_state_t (M : FloatModel) where
  timestamp : Nat
  raw_rendering_timestamp : Nat
  raw_simulation_timestamp : Nat
  raw_paused_simulation_timestamp : Nat
  orientation_available : Bool
  heading : M.F32
  pitch : M.F32
  roll : M.F32
  speed : M.F32
  acc : scs_value_fvector_t M
  rpm : M.F32
  gear : Int
  engine_running : Bool
  trailer_connected : Bool
  placement : scs_value_dplacement_t M
  parking_brake : Bool

/-- The module-level variables. `log_file` is `true` when the `FILE` pointer is
not null. -/
structure Globals (M : FloatModel) where
  log_file : Bool
  output_paused : Bool
  print_header : Bool
  last_timestamp : Nat
  telemetry : telemetry_state_t M

/-- An argument of a variadic `printf`-family call, after the default argument
promotions (`float` to `double`, `bool` to `int`). -/
inductive Arg (M : FloatModel) where
  | int (value : Int)
  | unsigned (value : Nat)
  | u64 (value : Nat)
  | double (value : M.F64)
  | str (value : String)

/-- What a handler does to the outside world. -/
inductive Effect (M : FloatModel) where
  /-- A call `vfprintf(log_file, format, args)` or `fprintf(log_file, format)`. -/
  | fprintf (format : String) (args : List (Arg M))
  /-- The call `publisher->sendOdometry(...)` with its fifteen arguments. -/
  | sendOdometry (speed acc_x acc_y acc_z rpm : M.F32) (gear : Int)
      (engine_running trailer_connected : Bool) (x y z : M.F64)
      (heading pitch roll : M.F32) (parking_brake : Bool)
  /-- The call `rclcpp::spin_some(publisher)`. -/
  | spin_some

/-! ## Logging -/

/-- Modelled from the spec: the SDK macro `SCS_PF_U64` is not among the
sources; the record format of the spec prints the four leading fields as
unsigned 64-bit decimals, and the macro is the `printf` length modifier and
conversion letter for such a value. -/
def SCS_PF_U64 : String := "llu"

/-- A `bool` passed to a variadic function is promoted to `int`. -/
def bool_to_int (b : Bool) : Int := if b then 1 else 0

/-- A `float` passed to a variadic function, promoted to `double`. -/
def Arg.float {M : FloatModel} (x : M.F32) : Arg M := Arg.double (M.promote x)

/-- A `bool` passed to a variadic function, promoted to `int`. -/
def Arg.bool {M : FloatModel} (b : Bool) : Arg M := Arg.int (bool_to_int b)

/-- The function `log_print`. -/
def log_print {M : FloatModel} (g : Globals M) (text : String) (args : List (Arg M)) :
    List (Effect M) :=
  if g.log_file then [Effect.fprintf text args] else []

/-- The function `log_line`: the formatted message, then a newline. -/
def log_line {M : FloatModel} (g : Globals M) (text : String) (args : List (Arg M)) :
    List (Effect M) :=
  if g.log_file then [Effect.fprintf text args, Effect.fprintf "\n" []] else []

/-! ## Event handlers -/

/-- The test `info->flags & SCS_TELEMETRY_FRAME_START_FLAG_timer_restart`. -/
def timer_restart (info : scs_telemetry_frame_start_t) : Bool :=
  info.flags &&& SCS_TELEMETRY_FRAME_START_FLAG_timer_restart != 0

/-- The handler `telemetry_frame_start`. -/
def telemetry_frame_start {M : FloatModel} (g : Globals M)
    (info : scs_telemetry_frame_start_t) : Globals M :=
  let last1 :=
    if g.last_timestamp = NEVER_SEEN then info.paused_simulation_time else g.last_timestamp
  let last2 := if timer_restart info then 0 else last1
  { g with
    last_timestamp := info.paused_simulation_time
    telemetry :=
      { g.telemetry with
        timestamp :=
          u64_add g.telemetry.timestamp (u64_sub info.paused_simulation_time last2)
        raw_rendering_timestamp := info.render_time
        raw_simulation_timestamp := info.simulation_time
        raw_paused_simulation_timestamp := info.paused_simulation_time } }

/-- The format string of the header line. -/
def HEADER : String :=
  "timestamp[us];raw rendering timestamp[us];raw simulation timestamp[us];raw paused simulation timestamp[us];heading[deg];pitch[deg];roll[deg];speed[m/s];rpm;gear"

/-- Format of the first `log_print` of a data line: the four timestamps. -/
def FORMAT_TIMESTAMPS : String :=
  "%" ++ SCS_PF_U64 ++ ";%" ++ SCS_PF_U64 ++ ";%" ++ SCS_PF_U64 ++ ";%" ++ SCS_PF_U64

/-- Format of the `log_line` that ends a data line. -/
def FORMAT_CHANNELS : String := ";%f;%f;%f;%f;%f;%d;%d;%d;%f;%f;%f;%f;%f;%f;%f"

/-- The handler `telemetry_frame_end`. -/
def telemetry_frame_end {M : FloatModel} (g : Globals M) : Globals M × List (Effect M) :=
  if g.output_paused then (g, [])
  else
    let t := g.telemetry
    let g1 := if g.print_header then { g with print_header := false } else g
    (g1,
      (if g.print_header then log_line g1 HEADER [] else [])
      ++ log_print g1 FORMAT_TIMESTAMPS
          [Arg.u64 t.timestamp, Arg.u64 t.raw_rendering_timestamp,
            Arg.u64 t.raw_simulation_timestamp, Arg.u64 t.raw_paused_simulation_timestamp]
      ++ (if t.orientation_available then
            log_print g1 ";%f;%f;%f" [Arg.float t.heading, Arg.float t.pitch, Arg.float t.roll]
          else log_print g1 ";---;---;---" [])
      ++ log_line g1 FORMAT_CHANNELS
          [Arg.float t.speed,
            Arg.float t.acc.x,
            Arg.float t.acc.y,
            Arg.float t.acc.z,
            Arg.float t.rpm,
            Arg.int t.gear,
            Arg.bool t.engine_running,
            Arg.bool t.trailer_connected,
            Arg.double t.placement.position.x,
            Arg.double t.placement.position.y,
            Arg.double t.placement.position.z,
            Arg.float t.placement.orientation.heading,
            Arg.float t.placement.orientation.pitch,
            Arg.float t.placement.orientation.roll,
            Arg.bool t.parking_brake]
      ++ log_line g1 "about to publish" []
      ++ [Effect.sendOdometry t.speed t.acc.x t.acc.y t.acc.z t.rpm t.gear
            t.engine_running t.trailer_connected
            t.placement.position.x t.placement.position.y t.placement.position.z
            (M.mul32 t.placement.orientation.heading M.lit_360)
            (M.mul32 t.placement.orientation.pitch M.lit_360)
            (M.mul32 t.placement.orientation.roll M.lit_360)
            t.parking_brake]
      ++ log_line g1 "about to spin" []
      ++ [Effect.spin_some]
      ++ log_line g1 "spinned" [])

/-- SDK type `scs_event_t`: the events the plugin registers for. -/
inductive scs_event_t where
  | frame_start
  | frame_end
  | paused
  | started
  | configuration
  deriving DecidableEq

/-- The handler `telemetry_pause`, registered for the events `paused` and
`started`. -/
def telemetry_pause {M : FloatModel} (event : scs_event_t) (g : Globals M) :
    Globals M × List (Effect M) :=
  let g1 := { g with output_paused := decide (event = scs_event_t.paused) }
  ({ g1 with print_header := true },
    if g1.output_paused then log_line g1 "Telemetry paused" []
    else log_line g1 "Telemetry unpaused" [])

/-- The `switch` of `telemetry_configuration`: the line printed for one value. -/
def log_value {M : FloatModel} (g : Globals M) : scs_value_t M → List (Effect M)
  | .invalid => log_line g "none" []
  | .bool value => log_line g "bool = %s" [Arg.str (if value then "true" else "false")]
  | .s32 value => log_line g "s32 = %d" [Arg.int value]
  | .u32 value => log_line g "u32 = %u" [Arg.unsigned value]
  | .u64 value => log_line g ("u64 = %" ++ SCS_PF_U64) [Arg.u64 value]
  | .float value => log_line g "float = %f" [Arg.float value]
  | .double value => log_line g "double = %f" [Arg.double value]
  | .fvector v => log_line g "fvector = (%f,%f,%f)" [Arg.float v.x, Arg.float v.y, Arg.float v.z]
  | .dvector v =>
    log_line g "dvector = (%f,%f,%f)" [Arg.double v.x, Arg.double v.y, Arg.double v.z]
  | .euler v =>
    log_line g "euler = h:%f p:%f r:%f"
      [Arg.float (M.mul32 v.heading M.lit_360), Arg.float (M.mul32 v.pitch M.lit_360),
        Arg.float (M.mul32 v.roll M.lit_360)]
  | .fplacement v =>
    log_line g "fplacement = (%f,%f,%f) h:%f p:%f r:%f"
      [Arg.float v.position.x, Arg.float v.position.y, Arg.float v.position.z,
        Arg.float (M.mul32 v.orientation.heading M.lit_360),
        Arg.float (M.mul32 v.orientation.pitch M.lit_360),
        Arg.float (M.mul32 v.orientation.roll M.lit_360)]
  | .dplacement v =>
    log_line g "dplacement = (%f,%f,%f) h:%f p:%f r:%f"
      [Arg.double v.position.x, Arg.double v.position.y, Arg.double v.position.z,
        Arg.float (M.mul32 v.orientation.heading M.lit_360),
        Arg.float (M.mul32 v.orientation.pitch M.lit_360),
        Arg.float (M.mul32 v.orientation.roll M.lit_360)]
  | .string value => log_line g "string = %s" [Arg.str value]
  | .other _ => log_line g "unknown" []

/-- The body of the `for` loop of `telemetry_configuration` for one attribute. -/
def log_attribute {M : FloatModel} (g : Globals M) (current : scs_named_value_t M) :
    List (Effect M) :=
  log_print g "  %s" [Arg.str current.name]
  ++ (match current.index with
      | some index => log_print g "[%u]" [Arg.unsigned index]
      | none => [])
  ++ log_print g " : " []
  ++ log_value g current.value

/-- The handler `telemetry_configuration`. -/
def telemetry_configuration {M : FloatModel} (g : Globals M)
    (info : scs_telemetry_configuration_t M) : Globals M × List (Effect M) :=
  ({ g with print_header := true },
    log_line g "Configuration: %s" [Arg.str info.id]
    ++ (info.attributes.map (log_attribute g)).flatten)

/-! ## Channel handlers

A handler receives `value` (`none` for a null pointer) and the object its
`context` pointer was registered with; it returns the new content of that
object, or `none` when an `assert` fails. The `context` pointers registered in
`scs_telemetry_init` are addresses of `telemetry` or of one of its fields and
are never null. -/

/-- The handler `telemetry_store_orientation`. -/
def telemetry_store_orientation {M : FloatModel} (value : Option (scs_value_t M))
    (state : telemetry_state_t M) : Option (telemetry_state_t M) :=
  match value with
  | none => some { state with orientation_available := false }
  | some (.euler e) =>
    some { state with
      orientation_available := true
      heading := M.mul32 e.heading M.lit_360
      pitch := M.mul32 e.pitch M.lit_360
      roll := M.mul32 e.roll M.lit_360 }
  | some _ => none

/-- The handler `telemetry_store_float`. -/
def telemetry_store_float {M : FloatModel} (value : Option (scs_value_t M))
    (_context : M.F32) : Option M.F32 :=
  match value with
  | some (.float v) => some v
  | _ => none

/-- The handler `telemetry_store_s32`. -/
def telemetry_store_s32 {M : FloatModel} (value : Option (scs_value_t M))
    (_context : Int) : Option Int :=
  match value with
  | some (.s32 v) => some v
  | _ => none

/-- The handler `telemetry_store_bool`. -/
def telemetry_store_bool {M : FloatModel} (value : Option (scs_value_t M))
    (_context : Bool) : Option Bool :=
  match value with
  | some (.bool v) => some v
  | _ => none

/-- The handler `telemetry_store_dplacement`. -/
def telemetry_store_dplacement {M : FloatModel} (value : Option (scs_value_t M))
    (_context : scs_value_dplacement_t M) : Option (scs_value_dplacement_t M) :=
  match value with
  | some (.dplacement v) => some v
  | _ => none

/-- The handler `telemetry_store_fvector`. -/
def telemetry_store_fvector {M : FloatModel} (value : Option (scs_value_t M))
    (storage : scs_value_fvector_t M) : Option (scs_value_fvector_t M) :=
  match value with
  | some (.fvector v) => some v
  | some _ => none
  | none => some { storage with x := M.zero32, y := M.zero32, z := M.zero32 }

/-- The nine channel registrations of `scs_telemetry_init`, in source order. -/
inductive Channel where
  | orientation
  | speed
  | acc
  | rpm
  | engine_running
  | gear
  | trailer_connected
  | placement
  | parking_brake
  deriving DecidableEq

/-- The callback registered for a channel, applied to the context registered
with it. -/
def channel_callback {M : FloatModel} (channel : Channel) (value : Option (scs_value_t M))
    (t : telemetry_state_t M) : Option (telemetry_state_t M) :=
  match channel with
  | .orientation => telemetry_store_orientation value t
  | .speed => (telemetry_store_float value t.speed).map fun v => { t with speed := v }
  | .acc => (telemetry_store_fvector value t.acc).map fun v => { t with acc := v }
  | .rpm => (telemetry_store_float value t.rpm).map fun v => { t with rpm := v }
  | .engine_running =>
    (telemetry_store_bool value t.engine_running).map fun v => { t with engine_running := v }
  | .gear => (telemetry_store_s32 value t.gear).map fun v => { t with gear := v }
  | .trailer_connected =>
    (telemetry_store_bool value t.trailer_connected).map fun v =>
      { t with trailer_connected := v }
  | .placement =>
    (telemetry_store_dplacement value t.placement).map fun v => { t with placement := v }
  | .parking_brake =>
    (telemetry_store_bool value t.parking_brake).map fun v => { t with parking_brake := v }

/-! ## Sessions -/

/-- The struct `telemetry` after `memset(&telemetry, 0, sizeof(telemetry))`. -/
def telemetry_zero (M : FloatModel) : telemetry_state_t M where
  timestamp := 0
  raw_rendering_timestamp := 0
  raw_simulation_timestamp := 0
  raw_paused_simulation_timestamp := 0
  orientation_available := false
  heading := M.zero32
  pitch := M.zero32
  roll := M.zero32
  speed := M.zero32
  acc := { x := M.zero32, y := M.zero32, z := M.zero32 }
  rpm := M.zero32
  gear := 0
  engine_running := false
  trailer_connected := false
  placement :=
    { position := { x := M.zero64, y := M.zero64, z := M.zero64 }
      orientation := { heading := M.zero32, pitch := M.zero32, roll := M.zero32 } }
  parking_brake := false

/-- The module state when `scs_telemetry_init` returns `SCS_RESULT_ok`: the log
file is open, the snapshot is zeroed, a header is owed, no frame was seen and
the output is paused. -/
def session_start (M : FloatModel) : Globals M where
  log_file := true
  output_paused := true
  print_header := true
  last_timestamp := NEVER_SEEN
  telemetry := telemetry_zero M

/-- A callback invocation by the host. -/
inductive HostCall (M : FloatModel) where
  | frame_start (info : scs_telemetry_frame_start_t)
  | frame_end
  | paused
  | started
  | configuration (info : scs_telemetry_configuration_t M)
  | channel (channel : Channel) (value : Option (scs_value_t M))

/-- One callback invocation: the new module state and the effects, or `none`
when an `assert` aborts the process. -/
def dispatch {M : FloatModel} (g : Globals M) : HostCall M → Option (Globals M × List (Effect M))
  | .frame_start info => some (telemetry_frame_start g info, [])
  | .frame_end => some (telemetry_frame_end g)
  | .paused => some (telemetry_pause scs_event_t.paused g)
  | .started => some (telemetry_pause scs_event_t.started g)
  | .configuration info => some (telemetry_configuration g info)
  | .channel channel value =>
    (channel_callback channel value g.telemetry).map fun t => ({ g with telemetry := t }, [])

/-- One entry of a session trace: the call, the state it found, its effects. -/
structure Step (M : FloatModel) where
  call : HostCall M
  before : Globals M
  effects : List (Effect M)

/-- The trace of a sequence of callback invocations; it ends where an `assert`
aborts the process. -/
def trace {M : FloatModel} : Globals M → List (HostCall M) → List (Step M)
  | _, [] => []
  | g, call :: rest =>
    match dispatch g call with
    | none => []
    | some (g1, effects) => { call := call, before := g, effects := effects } :: trace g1 rest

/-- The module state after a sequence of callback invocations (the state at
the abort when an `assert` fails). -/
def run {M : FloatModel} : Globals M → List (HostCall M) → Globals M
  | g, [] => g
  | g, call :: rest =>
    match dispatch g call with
    | none => g
    | some (g1, _) => run g1 rest

/-! ## What `printf` writes -/

/-- A piece of a format string: a literal character or a conversion. The
length modifiers `l`, `ll` and `I64` select the 64-bit variant of `%u`. -/
inductive Directive where
  | text (c : Char)
  | signed
  | unsigned
  | unsigned64
  | floating
  | string
  | invalid
  deriving DecidableEq

/-- Scan a format string. The state is `none` in literal text and `some long`
after a `%`, where `long` records that a length modifier was read. -/
def parse_format : Option Bool → List Char → List Directive
  | none, [] => []
  | some _, [] => [Directive.invalid]
  | none, c :: cs =>
    if c = '%' then parse_format (some false) cs
    else Directive.text c :: parse_format none cs
  | some long, c :: cs =>
    if c = 'l' ∨ c = 'I' ∨ c = '6' ∨ c = '4' then parse_format (some true) cs
    else
      (if c = 'd' then (if long then Directive.invalid else Directive.signed)
        else if c = 'u' then (if long then Directive.unsigned64 else Directive.unsigned)
        else if c = 'f' then Directive.floating
        else if c = 's' then (if long then Directive.invalid else Directive.string)
        else Directive.invalid) :: parse_format none cs

/-- The conversions of a format string, in order. -/
def conversions (format : String) : List Directive :=
  (parse_format none format.data).filter fun d =>
    match d with
    | Directive.text _ => false
    | _ => true

/-- The text written for parsed directives and arguments: `none` when a
conversion meets no argument or an argument of another type, which the C
standard leaves undefined. -/
def render (M : FloatModel) : List Directive → List (Arg M) → Option String
  | [], _ => some ""
  | Directive.text c :: ds, args => (render M ds args).map fun s => String.singleton c ++ s
  | Directive.signed :: ds, Arg.int v :: args => (render M ds args).map fun s => toString v ++ s
  | Directive.unsigned :: ds, Arg.unsigned v :: args =>
    (render M ds args).map fun s => toString v ++ s
  | Directive.unsigned64 :: ds, Arg.u64 v :: args =>
    (render M ds args).map fun s => toString v ++ s
  | Directive.floating :: ds, Arg.double v :: args =>
    (render M ds args).map fun s => M.fmt_f v ++ s
  | Directive.string :: ds, Arg.str v :: args => (render M ds args).map fun s => v ++ s
  | _, _ => none

/-- The text a `printf`-family call writes, when it is defined. -/
def sprintf (M : FloatModel) (format : String) (args : List (Arg M)) : Option String :=
  render M (parse_format none format.data) args

/-! ## Observations on effects and traces -/

/-- The effect is the `log_line` call that prints the header. -/
def is_header {M : FloatModel} : Effect M → Bool
  | Effect.fprintf format _ => format == HEADER
  | _ => false

/-- The effect is a call of the publisher (`sendOdometry`). -/
def is_publish {M : FloatModel} : Effect M → Bool
  | Effect.sendOdometry .. => true
  | _ => false

/-- Number of header lines among the effects. -/
def header_count {M : FloatModel} (effects : List (Effect M)) : Nat :=
  (effects.filter is_header).length

/-- The header discipline as the specification words it, checked along a
trace. `in_run` tells that an unpaused frame-end happened since the last
`paused` or `started` notification; a frame-end that finds the output paused
writes no header, an unpaused one writes the header exactly when it opens a run. -/
def header_once_per_run {M : FloatModel} : Bool → List (Step M) → Bool
  | _, [] => true
  | in_run, step :: rest =>
    match step.call with
    | HostCall.frame_end =>
      if step.before.output_paused then
        header_count step.effects == 0 && header_once_per_run in_run rest
      else
        header_count step.effects == (if in_run then 0 else 1)
          && header_once_per_run true rest
    | HostCall.paused => header_once_per_run false rest
    | HostCall.started => header_once_per_run false rest
    | _ => header_once_per_run in_run rest

/-- The header discipline of the code: as `header_once_per_run`, with a run
also ended by a `configuration` notification. -/
def header_once_per_gate {M : FloatModel} : Bool → List (Step M) → Bool
  | _, [] => true
  | in_run, step :: rest =>
    match step.call with
    | HostCall.frame_end =>
      if step.before.output_paused then
        header_count step.effects == 0 && header_once_per_gate in_run rest
      else
        header_count step.effects == (if in_run then 0 else 1)
          && header_once_per_gate true rest
    | HostCall.paused => header_once_per_gate false rest
    | HostCall.started => header_once_per_gate false rest
    | HostCall.configuration _ => header_once_per_gate false rest
    | _ => header_once_per_gate in_run rest

/-! ## A concrete number model

Six-decimal fixed-point numbers, an integer count of millionths, instantiate
the float interface so that handlers can be evaluated on concrete inputs. -/

/-- The text of a fixed-point number with six decimals. -/
def fixed_fmt (x : Int) : String :=
  let digits := toString (x.natAbs % 1000000)
  (if x < 0 then "-" else "") ++ toString (x.natAbs / 1000000) ++ "."
    ++ String.mk (List.replicate (6 - digits.length) '0') ++ digits

/-- Fixed-point instance of the float interface. -/
def fixedModel : FloatModel where
  F32 := Int
  F64 := Int
  mul32 a b := a * b / 1000000
  lit_360 := 360000000
  zero32 := 0
  zero64 := 0
  promote := id
  fmt_f := fixed_fmt

/-- A frame-start notification with the given flags and paused simulation
time (render and simulation time zero). -/
def frame_info (flags raw : Nat) : scs_telemetry_frame_start_t :=
  { flags := flags, render_time := 0, simulation_time := 0, paused_simulation_time := raw }

/-- An unpaused session with an open log: `session_start` after `started`. -/
def unpaused_session (M : FloatModel) : Globals M :=
  { session_start M with output_paused := false }

/-- A configuration notification without attributes. -/
def empty_configuration (M : FloatModel) : scs_telemetry_configuration_t M :=
  { id := "truck", attributes := [] }

end Telemetry

namespace Telemetry

/-! ## The timestamp tracker -/

theorem u64_mod_eq : U64_MOD = 18446744073709551616 := by
  norm_num [U64_MOD]

/-- The timestamp after a frame-start whose flags carry no restart bit. -/
theorem frame_start_timestamp_plain {M : FloatModel} (g : Globals M)
    (info : scs_telemetry_frame_start_t) (hflag : timer_restart info = false) :
    (telemetry_frame_start g info).telemetry.timestamp =
      u64_add g.telemetry.timestamp
        (u64_sub info.paused_simulation_time
          (if g.last_timestamp = NEVER_SEEN then info.paused_simulation_time
            else g.last_timestamp)) := by
  simp [telemetry_frame_start, hflag]

/-- The timestamp after a frame-start whose flags carry the restart bit. -/
theorem frame_start_timestamp_restart {M : FloatModel} (g : Globals M)
    (info : scs_telemetry_frame_start_t) (hflag : timer_restart info = true) :
    (telemetry_frame_start g info).telemetry.timestamp =
      u64_add g.telemetry.timestamp (u64_sub info.paused_simulation_time 0) := by
  simp [telemetry_frame_start, hflag]

theorem frame_start_last_timestamp {M : FloatModel} (g : Globals M)
    (info : scs_telemetry_frame_start_t) :
    (telemetry_frame_start g info).last_timestamp = info.paused_simulation_time := rfl

theorem run_frame_start_cons {M : FloatModel} (g : Globals M)
    (info : scs_telemetry_frame_start_t) (rest : List scs_telemetry_frame_start_t) :
    run g ((info :: rest).map HostCall.frame_start) =
      run (telemetry_frame_start g info) (rest.map HostCall.frame_start) := by
  simp [run, dispatch]

theorem u64_add_lt (a b : Nat) : u64_add a b < U64_MOD := by
  unfold u64_add
  exact Nat.mod_lt _ (by rw [u64_mod_eq]; norm_num)

theorem u64_add_sub_self (t r : Nat) (ht : t < U64_MOD) : u64_add t (u64_sub r r) = t := by
  simp only [u64_add, u64_sub, u64_mod_eq] at *
  omega

theorem u64_add_sub_chain (t l r final : Nat) (hl : l < U64_MOD) (hr : r < U64_MOD)
    (hfinal : final < U64_MOD) :
    u64_add (u64_add t (u64_sub r l)) (u64_sub final r) = u64_add t (u64_sub final l) := by
  simp only [u64_add, u64_sub, u64_mod_eq] at *
  omega

/-- Frame-starts without restart, from a state that has seen a frame: the
timestamp advances by the last raw time minus the stored one. -/
theorem run_frame_starts_from_seen {M : FloatModel} :
    ∀ (infos : List scs_telemetry_frame_start_t) (g : Globals M),
      g.telemetry.timestamp < U64_MOD → g.last_timestamp < U64_MOD →
      (infos ≠ [] → g.last_timestamp ≠ NEVER_SEEN) →
      (∀ i ∈ infos, timer_restart i = false) →
      (∀ i ∈ infos, i.paused_simulation_time < U64_MOD) →
      (∀ i ∈ infos.dropLast, i.paused_simulation_time ≠ NEVER_SEEN) →
      (run g (infos.map HostCall.frame_start)).telemetry.timestamp =
        u64_add g.telemetry.timestamp
          (u64_sub ((infos.getLast?.map fun i => i.paused_simulation_time).getD
            g.last_timestamp) g.last_timestamp) := by
  intro infos
  induction infos with
  | nil =>
    intro g hts hlast _ _ _ _
    simp only [List.map_nil, run, List.getLast?_nil, Option.map_none', Option.getD_none]
    exact (u64_add_sub_self _ _ hts).symm
  | cons info rest ih =>
    intro g hts hlast hseen hflag hrange hmid
    have hlast1 : g.last_timestamp ≠ NEVER_SEEN := hseen (List.cons_ne_nil _ _)
    have hf : timer_restart info = false := hflag info (List.mem_cons_self _ _)
    have hr : info.paused_simulation_time < U64_MOD := hrange info (List.mem_cons_self _ _)
    rw [run_frame_start_cons]
    have hstep := frame_start_timestamp_plain g info hf
    rw [if_neg hlast1] at hstep
    rw [ih (telemetry_frame_start g info)]
    · rw [hstep, frame_start_last_timestamp]
      cases rest with
      | nil =>
        simp only [List.getLast?_nil, Option.map_none', Option.getD_none,
          List.getLast?_singleton, Option.map_some', Option.getD_some]
        exact u64_add_sub_chain _ _ _ _ hlast hr hr
      | cons second rest2 =>
        have hlast2 := hrange _
          (List.mem_cons_of_mem info (List.getLast_mem (List.cons_ne_nil second rest2)))
        rw [List.getLast?_cons_cons]
        rw [List.getLast?_eq_getLast _ (List.cons_ne_nil second rest2)]
        simp only [Option.map_some', Option.getD_some]
        exact u64_add_sub_chain _ _ _ _ hlast hr hlast2
    · rw [hstep]; exact u64_add_lt _ _
    · rw [frame_start_last_timestamp]; exact hr
    · intro hne
      rw [frame_start_last_timestamp]
      cases rest with
      | nil => exact absurd rfl hne
      | cons second rest2 =>
        exact hmid info (by simp [List.dropLast])
    · intro i hi; exact hflag i (List.mem_cons_of_mem _ hi)
    · intro i hi; exact hrange i (List.mem_cons_of_mem _ hi)
    · intro i hi
      cases rest with
      | nil => simp at hi
      | cons second rest2 =>
        exact hmid i (by simp only [List.dropLast_cons₂]; exact List.mem_cons_of_mem _ hi)

/-- C1, as stated, fails: a raw time equal to the "never seen" value
`2^64 - 1` is taken for "no frame seen yet" by the next notification. On a
fresh session, after the raw times `r0 = 2^64 - 1` and `r1 = 5` (both without
restart flag) the timestamp is `0`, while `r1 - r0` is `6` modulo `2^64`. -/
theorem frame_starts_sentinel_raw_time :
    timer_restart (frame_info 0 18446744073709551615) = false
      ∧ timer_restart (frame_info 0 5) = false
      ∧ (run (session_start fixedModel)
          [HostCall.frame_start (frame_info 0 18446744073709551615),
            HostCall.frame_start (frame_info 0 5)]).telemetry.timestamp = 0
      ∧ u64_sub (frame_info 0 5).paused_simulation_time
          (frame_info 0 18446744073709551615).paused_simulation_time = 6
      ∧ (run (session_start fixedModel)
          [HostCall.frame_start (frame_info 0 18446744073709551615),
            HostCall.frame_start (frame_info 0 5)]).telemetry.timestamp ≠
        u64_sub (frame_info 0 5).paused_simulation_time
          (frame_info 0 18446744073709551615).paused_simulation_time := by
  decide

/-- C1 (amended): from a state with `timestamp = 0` and `last_timestamp` the
"never seen" value, after frame-start notifications with raw paused-simulation
times `r0, ..., rN` (each below `2^64`), none carrying the restart flag and none
but possibly the last equal to `2^64 - 1`, the timestamp is `rN - r0` in unsigned
64-bit arithmetic. -/
theorem frame_starts_without_restart {M : FloatModel} (g : Globals M)
    (first : scs_telemetry_frame_start_t) (rest : List scs_telemetry_frame_start_t)
    (hts : g.telemetry.timestamp = 0) (hnever : g.last_timestamp = NEVER_SEEN)
    (hflag : ∀ i ∈ first :: rest, timer_restart i = false)
    (hrange : ∀ i ∈ first :: rest, i.paused_simulation_time < U64_MOD)
    (hmid : ∀ i ∈ (first :: rest).dropLast, i.paused_simulation_time ≠ NEVER_SEEN) :
    (run g ((first :: rest).map HostCall.frame_start)).telemetry.timestamp =
      u64_sub ((first :: rest).getLast (List.cons_ne_nil _ _)).paused_simulation_time
        first.paused_simulation_time := by
  have hf : timer_restart first = false := hflag first (List.mem_cons_self _ _)
  have hr : first.paused_simulation_time < U64_MOD := hrange first (List.mem_cons_self _ _)
  have hstep := frame_start_timestamp_plain g first hf
  rw [if_pos hnever, hts] at hstep
  have hzero : (telemetry_frame_start g first).telemetry.timestamp = 0 := by
    rw [hstep]
    exact u64_add_sub_self 0 _ (by rw [u64_mod_eq]; norm_num)
  rw [run_frame_start_cons, run_frame_starts_from_seen rest (telemetry_frame_start g first)]
  · rw [hzero, frame_start_last_timestamp]
    have hmod : ∀ a b : Nat, u64_add 0 (u64_sub a b) = u64_sub a b := by
      intro a b
      simp only [u64_add, u64_sub, u64_mod_eq]
      omega
    rw [hmod]
    cases rest with
    | nil => simp
    | cons second rest2 =>
      rw [List.getLast?_eq_getLast _ (List.cons_ne_nil second rest2)]
      simp
  · rw [hzero, u64_mod_eq]; norm_num
  · rw [frame_start_last_timestamp]; exact hr
  · intro hne
    rw [frame_start_last_timestamp]
    cases rest with
    | nil => exact absurd rfl hne
    | cons second rest2 => exact hmid first (by simp [List.dropLast])
  · intro i hi; exact hflag i (List.mem_cons_of_mem _ hi)
  · intro i hi; exact hrange i (List.mem_cons_of_mem _ hi)
  · intro i hi
    cases rest with
    | nil => simp at hi
    | cons second rest2 =>
      exact hmid i (by simp only [List.dropLast_cons₂]; exact List.mem_cons_of_mem _ hi)

/-- Raw times `1000, 1500, 1200` on a fresh session: the hypotheses of C1
(amended) hold and the timestamp is the unsigned difference `1200 - 1000`. -/
theorem frame_starts_without_restart_witness :
    (session_start fixedModel).telemetry.timestamp = 0
      ∧ (session_start fixedModel).last_timestamp = NEVER_SEEN
      ∧ (∀ i ∈ [frame_info 0 1000, frame_info 0 1500, frame_info 0 1200],
          timer_restart i = false)
      ∧ (∀ i ∈ [frame_info 0 1000, frame_info 0 1500, frame_info 0 1200],
          i.paused_simulation_time < U64_MOD)
      ∧ (∀ i ∈ [frame_info 0 1000, frame_info 0 1500, frame_info 0 1200].dropLast,
          i.paused_simulation_time ≠ NEVER_SEEN)
      ∧ (run (session_start fixedModel)
          ([frame_info 0 1000, frame_info 0 1500, frame_info 0 1200].map
            HostCall.frame_start)).telemetry.timestamp =
        u64_sub 1200 1000 :=
  ⟨rfl, rfl, by decide, by decide, by decide,
    frame_starts_without_restart (session_start fixedModel) (frame_info 0 1000)
      [frame_info 0 1500, frame_info 0 1200] rfl rfl (by decide) (by decide) (by decide)⟩

/-- C2: a frame-start whose flags have the restart bit set leaves `timestamp`
equal to the previous timestamp plus the raw paused-simulation time modulo
`2^64` and sets `last_timestamp` to that raw time; the stored
`last_timestamp` has no influence on the resulting state. -/
theorem frame_start_restart {M : FloatModel} (g : Globals M)
    (info : scs_telemetry_frame_start_t) (hflag : timer_restart info = true) :
    (telemetry_frame_start g info).telemetry.timestamp =
        (g.telemetry.timestamp + info.paused_simulation_time) % U64_MOD
      ∧ (telemetry_frame_start g info).last_timestamp = info.paused_simulation_time
      ∧ ∀ stored : Nat,
          telemetry_frame_start { g with last_timestamp := stored } info =
            telemetry_frame_start g info := by
  refine ⟨?_, rfl, ?_⟩
  · rw [frame_start_timestamp_restart g info hflag]
    simp only [u64_add, u64_sub, u64_mod_eq]
    omega
  · intro stored
    simp [telemetry_frame_start, hflag]

/-- A restart frame with raw time `1000` on a fresh session. -/
theorem frame_start_restart_witness :
    timer_restart (frame_info 1 1000) = true
      ∧ (telemetry_frame_start (session_start fixedModel) (frame_info 1 1000)).telemetry.timestamp
          = ((session_start fixedModel).telemetry.timestamp
              + (frame_info 1 1000).paused_simulation_time) % U64_MOD
      ∧ (telemetry_frame_start (session_start fixedModel) (frame_info 1 1000)).last_timestamp
          = (frame_info 1 1000).paused_simulation_time
      ∧ ∀ stored : Nat,
          telemetry_frame_start { session_start fixedModel with last_timestamp := stored }
              (frame_info 1 1000) =
            telemetry_frame_start (session_start fixedModel) (frame_info 1 1000) :=
  ⟨by decide,
    frame_start_restart (session_start fixedModel) (frame_info 1 1000) (by decide)⟩

/-! ## Handlers other than frame-start keep the clocks -/

theorem channel_callback_timestamp {M : FloatModel} (channel : Channel)
    (value : Option (scs_value_t M)) (t t1 : telemetry_state_t M)
    (h : channel_callback channel value t = some t1) : t1.timestamp = t.timestamp := by
  cases channel <;> rcases value with _ | v <;> try cases v
  all_goals
    simp [channel_callback, telemetry_store_orientation, telemetry_store_float,
      telemetry_store_s32, telemetry_store_bool, telemetry_store_dplacement,
      telemetry_store_fvector] at h
  all_goals subst h; rfl

theorem dispatch_timestamp {M : FloatModel} (g : Globals M) (call : HostCall M)
    (hcall : ∀ info, call ≠ HostCall.frame_start info) (r : Globals M × List (Effect M))
    (h : dispatch g call = some r) : r.1.telemetry.timestamp = g.telemetry.timestamp := by
  cases call with
  | frame_start info => exact absurd rfl (hcall info)
  | frame_end =>
    simp only [dispatch, Option.some.injEq] at h
    subst h
    unfold telemetry_frame_end
    split
    · rfl
    · dsimp only
      split <;> rfl
  | paused => simp only [dispatch, Option.some.injEq] at h; subst h; rfl
  | started => simp only [dispatch, Option.some.injEq] at h; subst h; rfl
  | configuration info => simp only [dispatch, Option.some.injEq] at h; subst h; rfl
  | channel channel value =>
    simp only [dispatch, Option.map_eq_some'] at h
    obtain ⟨t1, ht1, hr⟩ := h
    subst hr
    exact channel_callback_timestamp channel value _ _ ht1

/-- C9, as stated, fails: on a session that saw the raw times `5` and `15`
(timestamp `10`), a frame-start without restart flag and raw time `10` leaves
the timestamp at `5`, which is less than before. -/
theorem frame_start_timestamp_can_decrease :
    (run (session_start fixedModel)
        [HostCall.frame_start (frame_info 0 5),
          HostCall.frame_start (frame_info 0 15)]).telemetry.timestamp = 10
      ∧ timer_restart (frame_info 0 10) = false
      ∧ (telemetry_frame_start
          (run (session_start fixedModel)
            [HostCall.frame_start (frame_info 0 5), HostCall.frame_start (frame_info 0 15)])
          (frame_info 0 10)).telemetry.timestamp = 5
      ∧ ¬ (run (session_start fixedModel)
            [HostCall.frame_start (frame_info 0 5),
              HostCall.frame_start (frame_info 0 15)]).telemetry.timestamp ≤
          (telemetry_frame_start
            (run (session_start fixedModel)
              [HostCall.frame_start (frame_info 0 5), HostCall.frame_start (frame_info 0 15)])
            (frame_info 0 10)).telemetry.timestamp := by
  decide

/-- C9 (amended): a frame-start without the restart flag does not decrease the
timestamp when the raw paused-simulation time has not gone back (first
notification, or raw time at least the stored `last_timestamp`) and the sum of
timestamp and delta stays below `2^64`; and no handler other than frame-start
changes the timestamp. -/
theorem timestamp_monotone_without_restart {M : FloatModel} (g : Globals M)
    (info : scs_telemetry_frame_start_t) (hflag : timer_restart info = false)
    (hraw : g.last_timestamp = NEVER_SEEN ∨ g.last_timestamp ≤ info.paused_simulation_time)
    (hrange : info.paused_simulation_time < U64_MOD)
    (hroom : g.telemetry.timestamp + (info.paused_simulation_time - g.last_timestamp)
      < U64_MOD) :
    g.telemetry.timestamp ≤ (telemetry_frame_start g info).telemetry.timestamp
      ∧ ∀ (call : HostCall M), (∀ i, call ≠ HostCall.frame_start i) →
          ∀ r, dispatch g call = some r →
            r.1.telemetry.timestamp = g.telemetry.timestamp := by
  refine ⟨?_, fun call hcall r hr => dispatch_timestamp g call hcall r hr⟩
  rw [frame_start_timestamp_plain g info hflag]
  by_cases hnever : g.last_timestamp = NEVER_SEEN
  · rw [if_pos hnever]
    rw [u64_add_sub_self _ _ (by omega)]
  · rw [if_neg hnever]
    have hle : g.last_timestamp ≤ info.paused_simulation_time := by
      rcases hraw with h | h
      · exact absurd h hnever
      · exact h
    simp only [u64_add, u64_sub, u64_mod_eq] at *
    omega

/-- A session that saw raw time `5`, then a frame with raw time `15`: the
hypotheses of C9 (amended) hold. -/
theorem timestamp_monotone_without_restart_witness :
    timer_restart (frame_info 0 15) = false
      ∧ (telemetry_frame_start (session_start fixedModel) (frame_info 0 5)).last_timestamp
          ≤ (frame_info 0 15).paused_simulation_time
      ∧ (frame_info 0 15).paused_simulation_time < U64_MOD
      ∧ (telemetry_frame_start (session_start fixedModel) (frame_info 0 5)).telemetry.timestamp
          + ((frame_info 0 15).paused_simulation_time
            - (telemetry_frame_start (session_start fixedModel)
                (frame_info 0 5)).last_timestamp) < U64_MOD
      ∧ (telemetry_frame_start (session_start fixedModel) (frame_info 0 5)).telemetry.timestamp
        ≤ (telemetry_frame_start
            (telemetry_frame_start (session_start fixedModel) (frame_info 0 5))
            (frame_info 0 15)).telemetry.timestamp :=
  ⟨by decide, by decide, by decide, by decide,
    (timestamp_monotone_without_restart
      (telemetry_frame_start (session_start fixedModel) (frame_info 0 5)) (frame_info 0 15)
      (by decide) (by decide) (by decide) (by decide)).1⟩

/-- C10, as stated, fails: the first frame-start of a session with the restart
flag set and raw time `1000` moves the timestamp from `0` to `1000` instead of
leaving it unchanged. -/
theorem first_frame_start_with_restart_flag :
    (session_start fixedModel).last_timestamp = NEVER_SEEN
      ∧ (session_start fixedModel).telemetry.timestamp = 0
      ∧ timer_restart (frame_info 1 1000) = true
      ∧ (telemetry_frame_start (session_start fixedModel)
          (frame_info 1 1000)).telemetry.timestamp = 1000
      ∧ (telemetry_frame_start (session_start fixedModel)
          (frame_info 1 1000)).telemetry.timestamp ≠
        (session_start fixedModel).telemetry.timestamp := by
  decide

/-- C10 (amended): on the first frame-start of a session (`last_timestamp` holds
the "never seen" value) `last_timestamp` becomes the raw paused-simulation
time; the timestamp is unchanged when the restart flag is clear, and advances
by the raw time modulo `2^64` when it is set. -/
theorem first_frame_start {M : FloatModel} (g : Globals M)
    (info : scs_telemetry_frame_start_t) (hnever : g.last_timestamp = NEVER_SEEN)
    (hts : g.telemetry.timestamp < U64_MOD) :
    (telemetry_frame_start g info).last_timestamp = info.paused_simulation_time
      ∧ (telemetry_frame_start g info).telemetry.timestamp =
          if timer_restart info then
            (g.telemetry.timestamp + info.paused_simulation_time) % U64_MOD
          else g.telemetry.timestamp := by
  refine ⟨rfl, ?_⟩
  cases hflag : timer_restart info
  · rw [frame_start_timestamp_plain g info hflag, if_pos hnever]
    simpa using u64_add_sub_self _ _ hts
  · rw [frame_start_timestamp_restart g info hflag]
    simp only [u64_add, u64_sub, u64_mod_eq, if_true]
    omega

/-- The first frame-start of a fresh session, raw time `1000`, no restart flag:
the timestamp stays `0`. -/
theorem first_frame_start_witness :
    (session_start fixedModel).last_timestamp = NEVER_SEEN
      ∧ (session_start fixedModel).telemetry.timestamp < U64_MOD
      ∧ (telemetry_frame_start (session_start fixedModel) (frame_info 0 1000)).last_timestamp
          = (frame_info 0 1000).paused_simulation_time
      ∧ (telemetry_frame_start (session_start fixedModel) (frame_info 0 1000)).telemetry.timestamp
        = if timer_restart (frame_info 0 1000) then
            ((session_start fixedModel).telemetry.timestamp
              + (frame_info 0 1000).paused_simulation_time) % U64_MOD
          else (session_start fixedModel).telemetry.timestamp :=
  ⟨rfl, by decide,
    first_frame_start (session_start fixedModel) (frame_info 0 1000) rfl (by decide)⟩

/-! ## The pause gate and the frame-end emitter -/

theorem frame_end_paused {M : FloatModel} (g : Globals M) (hpaused : g.output_paused = true) :
    telemetry_frame_end g = (g, []) := by
  simp [telemetry_frame_end, hpaused]

theorem dispatch_channel_effects {M : FloatModel} (g : Globals M) (channel : Channel)
    (value : Option (scs_value_t M)) (r : Globals M × List (Effect M))
    (h : dispatch g (HostCall.channel channel value) = some r) :
    r.2 = [] ∧ r.1.log_file = g.log_file ∧ r.1.output_paused = g.output_paused
      ∧ r.1.print_header = g.print_header ∧ r.1.last_timestamp = g.last_timestamp := by
  simp only [dispatch, Option.map_eq_some'] at h
  obtain ⟨t1, _, hr⟩ := h
  subst hr
  exact ⟨rfl, rfl, rfl, rfl, rfl⟩

theorem trace_paused_silent {M : FloatModel} :
    ∀ (calls : List (HostCall M)) (g : Globals M), g.output_paused = true →
      (∀ c ∈ calls, c = HostCall.frame_end ∨ ∃ channel value, c = HostCall.channel channel value) →
      ∀ s ∈ trace g calls, s.effects = [] := by
  intro calls
  induction calls with
  | nil => intro g _ _ s hs; simp [trace] at hs
  | cons call rest ih =>
    intro g hpaused hcalls s hs
    have hrest : ∀ c ∈ rest,
        c = HostCall.frame_end ∨ ∃ channel value, c = HostCall.channel channel value :=
      fun c hc => hcalls c (List.mem_cons_of_mem _ hc)
    rcases hcalls call (List.mem_cons_self _ _) with hcall | ⟨channel, value, hcall⟩
    · subst hcall
      simp only [trace, dispatch, frame_end_paused g hpaused, List.mem_cons] at hs
      rcases hs with hs | hs
      · subst hs; rfl
      · exact ih g hpaused hrest s hs
    · subst hcall
      cases hd : dispatch g (HostCall.channel channel value) with
      | none => simp [trace, hd] at hs
      | some r =>
        obtain ⟨hfx, _, hp, _, _⟩ := dispatch_channel_effects g channel value r hd
        simp only [trace, hd, List.mem_cons] at hs
        rcases hs with hs | hs
        · subst hs; exact hfx
        · exact ih r.1 (by rw [hp]; exact hpaused) hrest s hs

/-- C3: while `output_paused` is true, `telemetry_frame_end` returns the state
unchanged (the `print_header` flag included) and has no effect; a channel store
handler has no effect and leaves the pause gate as it is; so a sequence of
frame-ends and channel updates writes nothing to the log and never calls the
publisher. -/
theorem paused_no_output {M : FloatModel} (g : Globals M) (hpaused : g.output_paused = true) :
    telemetry_frame_end g = (g, [])
      ∧ (∀ (channel : Channel) (value : Option (scs_value_t M)) r,
          dispatch g (HostCall.channel channel value) = some r →
            r.2 = [] ∧ r.1.output_paused = true ∧ r.1.print_header = g.print_header)
      ∧ ∀ calls : List (HostCall M),
          (∀ c ∈ calls,
            c = HostCall.frame_end ∨ ∃ channel value, c = HostCall.channel channel value) →
          ∀ s ∈ trace g calls, s.effects = [] := by
  refine ⟨frame_end_paused g hpaused, ?_, fun calls hcalls => trace_paused_silent calls g hpaused hcalls⟩
  intro channel value r hr
  obtain ⟨hfx, _, hp, hh, _⟩ := dispatch_channel_effects g channel value r hr
  exact ⟨hfx, by rw [hp]; exact hpaused, hh⟩

/-- A fresh session is paused: a frame-end there does nothing. -/
theorem paused_no_output_witness :
    (session_start fixedModel).output_paused = true
      ∧ telemetry_frame_end (session_start fixedModel) = (session_start fixedModel, []) :=
  ⟨rfl, (paused_no_output (session_start fixedModel) rfl).1⟩

/-- C5: an unpaused `telemetry_frame_end` calls `sendOdometry` exactly once,
with speed, acc.x, acc.y, acc.z, rpm, gear, engine_running, trailer_connected,
position x, y, z, then the placement orientation heading, pitch, roll each
multiplied by `360.0f`, then parking_brake. -/
theorem frame_end_publishes_once {M : FloatModel} (g : Globals M)
    (hunpaused : g.output_paused = false) :
    (telemetry_frame_end g).2.filter is_publish =
      [Effect.sendOdometry g.telemetry.speed g.telemetry.acc.x g.telemetry.acc.y
        g.telemetry.acc.z g.telemetry.rpm g.telemetry.gear g.telemetry.engine_running
        g.telemetry.trailer_connected g.telemetry.placement.position.x
        g.telemetry.placement.position.y g.telemetry.placement.position.z
        (M.mul32 g.telemetry.placement.orientation.heading M.lit_360)
        (M.mul32 g.telemetry.placement.orientation.pitch M.lit_360)
        (M.mul32 g.telemetry.placement.orientation.roll M.lit_360)
        g.telemetry.parking_brake] := by
  cases hlog : g.log_file <;> cases hheader : g.print_header
    <;> cases havail : g.telemetry.orientation_available
    <;> simp [telemetry_frame_end, hunpaused, hlog, hheader, havail, log_line, log_print,
      is_publish]

/-- An unpaused session with a zeroed snapshot: one `sendOdometry` call. -/
theorem frame_end_publishes_once_witness :
    (unpaused_session fixedModel).output_paused = false
      ∧ ((telemetry_frame_end (unpaused_session fixedModel)).2.filter is_publish).length = 1 :=
  ⟨rfl, by rw [frame_end_publishes_once (unpaused_session fixedModel) rfl]; rfl⟩

/-- The effects of an unpaused frame-end on an open log: the header line when
one is owed, the three `printf` calls of the data line, then the publishing
calls. -/
theorem frame_end_effects {M : FloatModel} (t : telemetry_state_t M) (last : Nat)
    (header : Bool) :
    (telemetry_frame_end
        { log_file := true, output_paused := false, print_header := header,
          last_timestamp := last, telemetry := t }).2 =
      (if header then [Effect.fprintf HEADER [], Effect.fprintf "\n" []] else []) ++
      [Effect.fprintf FORMAT_TIMESTAMPS
          [Arg.u64 t.timestamp, Arg.u64 t.raw_rendering_timestamp,
            Arg.u64 t.raw_simulation_timestamp, Arg.u64 t.raw_paused_simulation_timestamp],
        (if t.orientation_available then
          Effect.fprintf ";%f;%f;%f" [Arg.float t.heading, Arg.float t.pitch, Arg.float t.roll]
        else Effect.fprintf ";---;---;---" []),
        Effect.fprintf FORMAT_CHANNELS
          [Arg.float t.speed, Arg.float t.acc.x, Arg.float t.acc.y, Arg.float t.acc.z,
            Arg.float t.rpm, Arg.int t.gear, Arg.bool t.engine_running,
            Arg.bool t.trailer_connected, Arg.double t.placement.position.x,
            Arg.double t.placement.position.y, Arg.double t.placement.position.z,
            Arg.float t.placement.orientation.heading,
            Arg.float t.placement.orientation.pitch,
            Arg.float t.placement.orientation.roll, Arg.bool t.parking_brake],
        Effect.fprintf "\n" [],
        Effect.fprintf "about to publish" [],
        Effect.fprintf "\n" [],
        Effect.sendOdometry t.speed t.acc.x t.acc.y t.acc.z t.rpm t.gear t.engine_running
          t.trailer_connected t.placement.position.x t.placement.position.y
          t.placement.position.z (M.mul32 t.placement.orientation.heading M.lit_360)
          (M.mul32 t.placement.orientation.pitch M.lit_360)
          (M.mul32 t.placement.orientation.roll M.lit_360) t.parking_brake,
        Effect.fprintf "about to spin" [],
        Effect.fprintf "\n" [],
        Effect.spin_some,
        Effect.fprintf "spinned" [],
        Effect.fprintf "\n" []] := by
  cases havail : t.orientation_available <;> cases header <;>
    simp [telemetry_frame_end, havail, log_line, log_print]

/-- C6 (the code departs from it): the `log_line` call that ends the data line
has fifteen conversions for fifteen arguments, and the last conversion is `%f`
while the last argument, `parking_brake`, is a `bool` promoted to `int`. The
first fourteen conversions match their arguments; the text written for the
whole call is undefined, so the 22nd field is not the `0`/`1` rendering of
`parking_brake`. -/
theorem data_line_parking_brake_conversion {M : FloatModel} (t : telemetry_state_t M)
    (last : Nat) (header : Bool) :
    ((telemetry_frame_end
        { log_file := true, output_paused := false, print_header := header,
          last_timestamp := last, telemetry := t }).2.drop (if header then 2 else 0)).get? 2 =
      some (Effect.fprintf FORMAT_CHANNELS
        [Arg.float t.speed, Arg.float t.acc.x, Arg.float t.acc.y, Arg.float t.acc.z,
          Arg.float t.rpm, Arg.int t.gear, Arg.bool t.engine_running,
          Arg.bool t.trailer_connected, Arg.double t.placement.position.x,
          Arg.double t.placement.position.y, Arg.double t.placement.position.z,
          Arg.float t.placement.orientation.heading,
          Arg.float t.placement.orientation.pitch,
          Arg.float t.placement.orientation.roll, Arg.int (bool_to_int t.parking_brake)])
      ∧ conversions FORMAT_CHANNELS =
          [Directive.floating, Directive.floating, Directive.floating, Directive.floating,
            Directive.floating, Directive.signed, Directive.signed, Directive.signed,
            Directive.floating, Directive.floating, Directive.floating, Directive.floating,
            Directive.floating, Directive.floating, Directive.floating]
      ∧ sprintf M FORMAT_CHANNELS
          [Arg.float t.speed, Arg.float t.acc.x, Arg.float t.acc.y, Arg.float t.acc.z,
            Arg.float t.rpm, Arg.int t.gear, Arg.bool t.engine_running,
            Arg.bool t.trailer_connected, Arg.double t.placement.position.x,
            Arg.double t.placement.position.y, Arg.double t.placement.position.z,
            Arg.float t.placement.orientation.heading,
            Arg.float t.placement.orientation.pitch,
            Arg.float t.placement.orientation.roll, Arg.bool t.parking_brake] = none
      ∧ sprintf M ";%f;%f;%f;%f;%f;%d;%d;%d;%f;%f;%f;%f;%f;%f"
          [Arg.float t.speed, Arg.float t.acc.x, Arg.float t.acc.y, Arg.float t.acc.z,
            Arg.float t.rpm, Arg.int t.gear, Arg.bool t.engine_running,
            Arg.bool t.trailer_connected, Arg.double t.placement.position.x,
            Arg.double t.placement.position.y, Arg.double t.placement.position.z,
            Arg.float t.placement.orientation.heading,
            Arg.float t.placement.orientation.pitch,
            Arg.float t.placement.orientation.roll] ≠ none := by
  refine ⟨?_, by decide, ?_, ?_⟩
  · rw [frame_end_effects]; cases header <;> rfl
  · have hp : parse_format none FORMAT_CHANNELS.data =
        [Directive.text ';', Directive.floating, Directive.text ';', Directive.floating,
          Directive.text ';', Directive.floating, Directive.text ';', Directive.floating,
          Directive.text ';', Directive.floating, Directive.text ';', Directive.signed,
          Directive.text ';', Directive.signed, Directive.text ';', Directive.signed,
          Directive.text ';', Directive.floating, Directive.text ';', Directive.floating,
          Directive.text ';', Directive.floating, Directive.text ';', Directive.floating,
          Directive.text ';', Directive.floating, Directive.text ';', Directive.floating,
          Directive.text ';', Directive.floating] := by decide
    simp [sprintf, hp, render, Arg.float, Arg.bool]
  · have hp : parse_format none ";%f;%f;%f;%f;%f;%d;%d;%d;%f;%f;%f;%f;%f;%f".data =
        [Directive.text ';', Directive.floating, Directive.text ';', Directive.floating,
          Directive.text ';', Directive.floating, Directive.text ';', Directive.floating,
          Directive.text ';', Directive.floating, Directive.text ';', Directive.signed,
          Directive.text ';', Directive.signed, Directive.text ';', Directive.signed,
          Directive.text ';', Directive.floating, Directive.text ';', Directive.floating,
          Directive.text ';', Directive.floating, Directive.text ';', Directive.floating,
          Directive.text ';', Directive.floating, Directive.text ';', Directive.floating] := by
      decide
    simp [sprintf, hp, render, Arg.float, Arg.bool]

/-- C7: `telemetry_store_orientation` without a value clears
`orientation_available` and changes nothing else; an unpaused frame-end on that
snapshot writes, after the header line when one is owed, the four timestamps
and then the literal `;---;---;---`; a later call with an euler value sets `orientation_available` and stores heading,
pitch and roll as the components multiplied by `360.0f`. -/
theorem store_orientation_absent_then_present {M : FloatModel} (t : telemetry_state_t M)
    (e : scs_value_euler_t M) (last : Nat) (header : Bool) :
    telemetry_store_orientation none t = some { t with orientation_available := false }
      ∧ (((telemetry_frame_end
            { log_file := true, output_paused := false, print_header := header,
              last_timestamp := last,
              telemetry := { t with orientation_available := false } }).2.drop
            (if header then 2 else 0)).take 2 =
          [Effect.fprintf FORMAT_TIMESTAMPS
              [Arg.u64 t.timestamp, Arg.u64 t.raw_rendering_timestamp,
                Arg.u64 t.raw_simulation_timestamp,
                Arg.u64 t.raw_paused_simulation_timestamp],
            Effect.fprintf ";---;---;---" []])
      ∧ sprintf M ";---;---;---" [] = some ";---;---;---"
      ∧ telemetry_store_orientation (some (scs_value_t.euler e))
            { t with orientation_available := false } =
          some { t with
            orientation_available := true
            heading := M.mul32 e.heading M.lit_360
            pitch := M.mul32 e.pitch M.lit_360
            roll := M.mul32 e.roll M.lit_360 } := by
  refine ⟨rfl, ?_, ?_, rfl⟩
  · rw [frame_end_effects]
    cases header <;> rfl
  · have hp : parse_format none ";---;---;---".data =
        [Directive.text ';', Directive.text '-', Directive.text '-', Directive.text '-',
          Directive.text ';', Directive.text '-', Directive.text '-', Directive.text '-',
          Directive.text ';', Directive.text '-', Directive.text '-', Directive.text '-'] := by
      decide
    simp only [sprintf, hp, render, Option.map_some']
    decide

/-- C8: `telemetry_store_fvector` without a value sets the three stored
components to `0.0f`, whatever they were (for instance `(1.0, 2.0, 3.0)` in the
fixed-point instance); with an fvector value it stores that vector as it is. -/
theorem store_fvector_absent_or_present {M : FloatModel} (storage v : scs_value_fvector_t M) :
    telemetry_store_fvector none storage =
        some { x := M.zero32, y := M.zero32, z := M.zero32 }
      ∧ telemetry_store_fvector (some (scs_value_t.fvector v)) storage = some v
      ∧ telemetry_store_fvector (M := fixedModel) none
            { x := (1000000 : Int), y := (2000000 : Int), z := (3000000 : Int) } =
          some { x := (0 : Int), y := (0 : Int), z := (0 : Int) } :=
  ⟨rfl, rfl, rfl⟩

/-! ## The header discipline -/

theorem frame_end_header_count {M : FloatModel} (g : Globals M) (hlog : g.log_file = true)
    (hunpaused : g.output_paused = false) :
    header_count (telemetry_frame_end g).2 = (if g.print_header then 1 else 0)
      ∧ (telemetry_frame_end g).1.log_file = true
      ∧ (telemetry_frame_end g).1.print_header = false := by
  have h1 : (FORMAT_TIMESTAMPS == HEADER) = false := by decide
  have h2 : (FORMAT_CHANNELS == HEADER) = false := by decide
  have h3 : (";%f;%f;%f" == HEADER) = false := by decide
  have h4 : (";---;---;---" == HEADER) = false := by decide
  have h5 : ("\n" == HEADER) = false := by decide
  have h6 : ("about to publish" == HEADER) = false := by decide
  have h7 : ("about to spin" == HEADER) = false := by decide
  have h8 : ("spinned" == HEADER) = false := by decide
  have h9 : (HEADER == HEADER) = true := by decide
  cases hheader : g.print_header <;> cases havail : g.telemetry.orientation_available
    <;> simp [telemetry_frame_end, hunpaused, hlog, hheader, havail, log_line, log_print,
      header_count, is_header, h1, h2, h3, h4, h5, h6, h7, h8, h9]

theorem trace_cons_some {M : FloatModel} (g : Globals M) (call : HostCall M)
    (rest : List (HostCall M)) (r : Globals M × List (Effect M))
    (h : dispatch g call = some r) :
    trace g (call :: rest) = { call := call, before := g, effects := r.2 } :: trace r.1 rest := by
  simp only [trace, h]

theorem header_gate_invariant {M : FloatModel} :
    ∀ (calls : List (HostCall M)) (g : Globals M) (in_run : Bool), g.log_file = true →
      g.print_header = !in_run → header_once_per_gate in_run (trace g calls) = true := by
  intro calls
  induction calls with
  | nil => intro g in_run _ _; rfl
  | cons call rest ih =>
    intro g in_run hlog hheader
    cases call with
    | frame_start info =>
      rw [trace_cons_some g (HostCall.frame_start info) rest (telemetry_frame_start g info, []) rfl]
      simp only [header_once_per_gate]
      exact ih _ in_run hlog hheader
    | frame_end =>
      rw [trace_cons_some g HostCall.frame_end rest (telemetry_frame_end g) rfl]
      rcases Bool.eq_false_or_eq_true g.output_paused with hpaused | hpaused
      · rw [frame_end_paused g hpaused]
        simp only [header_once_per_gate, hpaused, if_true]
        rw [ih g in_run hlog hheader]
        rfl
      · obtain ⟨hcount, hlog1, hheader1⟩ := frame_end_header_count g hlog hpaused
        simp only [header_once_per_gate, hpaused, hcount, hheader]
        rw [ih _ true hlog1 (by rw [hheader1]; rfl)]
        cases in_run <;> rfl
    | paused =>
      rw [trace_cons_some g HostCall.paused rest (telemetry_pause scs_event_t.paused g) rfl]
      simp only [header_once_per_gate]
      exact ih _ false hlog rfl
    | started =>
      rw [trace_cons_some g HostCall.started rest (telemetry_pause scs_event_t.started g) rfl]
      simp only [header_once_per_gate]
      exact ih _ false hlog rfl
    | configuration info =>
      rw [trace_cons_some g (HostCall.configuration info) rest (telemetry_configuration g info) rfl]
      simp only [header_once_per_gate]
      exact ih _ false hlog rfl
    | channel channel value =>
      cases hd : dispatch g (HostCall.channel channel value) with
      | none => simp [trace, hd, header_once_per_gate]
      | some r =>
        obtain ⟨_, hl, _, hh, _⟩ := dispatch_channel_effects g channel value r hd
        rw [trace_cons_some g _ rest r hd]
        simp only [header_once_per_gate]
        exact ih r.1 in_run (by rw [hl]; exact hlog) (by rw [hh]; exact hheader)

/-- C4, as stated, fails: on a fresh session the calls `started`, frame-end,
`configuration`, frame-end find the output paused, unpaused, unpaused,
unpaused; the two frame-ends belong to one run with no pause in between, yet
each of them writes the header (header lines per call: 0, 1, 0, 1). -/
theorem header_twice_in_one_run :
    (trace (session_start fixedModel)
        [HostCall.started, HostCall.frame_end,
          HostCall.configuration (empty_configuration fixedModel), HostCall.frame_end]).map
        (fun s => (s.before.output_paused, header_count s.effects)) =
      [(true, 0), (false, 1), (false, 0), (false, 1)]
      ∧ header_once_per_run false
          (trace (session_start fixedModel)
            [HostCall.started, HostCall.frame_end,
              HostCall.configuration (empty_configuration fixedModel), HostCall.frame_end]) =
        false :=
  ⟨rfl, rfl⟩

/-- C4 (amended): for every sequence of host calls on a fresh session, a
frame-end that finds the output paused writes no header, and an unpaused
frame-end writes the header exactly once when no unpaused frame-end happened
since the last `paused`, `started` or `configuration` notification (or since
the start of the session), and not at all otherwise. -/
theorem header_once_per_gate_holds {M : FloatModel} (calls : List (HostCall M)) :
    header_once_per_gate false (trace (session_start M) calls) = true :=
  header_gate_invariant calls (session_start M) false rfl rfl

/-! ## Single-field updates -/

/-- C11: with a present value of the expected type each store handler returns
exactly that value for the object it was registered with, so the update of
speed, rpm, gear, engine_running, trailer_connected, parking_brake, placement
or acc replaces that one field of the snapshot and keeps every other field;
`orientation_available` in particular is what it was; the rest of the module
state is kept and nothing is logged or published. -/
theorem single_field_updates {M : FloatModel} (g : Globals M) (t : telemetry_state_t M)
    (f : M.F32) (i : Int) (b : Bool) (p : scs_value_dplacement_t M)
    (v : scs_value_fvector_t M) :
    (telemetry_store_float (some (scs_value_t.float f)) t.speed = some f
      ∧ telemetry_store_float (some (scs_value_t.float f)) t.rpm = some f
      ∧ telemetry_store_s32 (M := M) (some (scs_value_t.s32 i)) t.gear = some i
      ∧ telemetry_store_bool (M := M) (some (scs_value_t.bool b)) t.engine_running = some b
      ∧ telemetry_store_dplacement (some (scs_value_t.dplacement p)) t.placement = some p
      ∧ telemetry_store_fvector (some (scs_value_t.fvector v)) t.acc = some v)
      ∧ (channel_callback Channel.speed (some (scs_value_t.float f)) t =
            some { t with speed := f }
        ∧ channel_callback Channel.rpm (some (scs_value_t.float f)) t =
            some { t with rpm := f }
        ∧ channel_callback Channel.gear (some (scs_value_t.s32 i)) t =
            some { t with gear := i }
        ∧ channel_callback Channel.engine_running (some (scs_value_t.bool b)) t =
            some { t with engine_running := b }
        ∧ channel_callback Channel.trailer_connected (some (scs_value_t.bool b)) t =
            some { t with trailer_connected := b }
        ∧ channel_callback Channel.parking_brake (some (scs_value_t.bool b)) t =
            some { t with parking_brake := b }
        ∧ channel_callback Channel.placement (some (scs_value_t.dplacement p)) t =
            some { t with placement := p }
        ∧ channel_callback Channel.acc (some (scs_value_t.fvector v)) t =
            some { t with acc := v })
      ∧ ((channel_callback Channel.speed (some (scs_value_t.float f)) t).map
              (fun t1 => t1.orientation_available) = some t.orientation_available
        ∧ (channel_callback Channel.rpm (some (scs_value_t.float f)) t).map
              (fun t1 => t1.orientation_available) = some t.orientation_available
        ∧ (channel_callback Channel.gear (some (scs_value_t.s32 i)) t).map
              (fun t1 => t1.orientation_available) = some t.orientation_available
        ∧ (channel_callback Channel.engine_running (some (scs_value_t.bool b)) t).map
              (fun t1 => t1.orientation_available) = some t.orientation_available
        ∧ (channel_callback Channel.trailer_connected (some (scs_value_t.bool b)) t).map
              (fun t1 => t1.orientation_available) = some t.orientation_available
        ∧ (channel_callback Channel.parking_brake (some (scs_value_t.bool b)) t).map
              (fun t1 => t1.orientation_available) = some t.orientation_available
        ∧ (channel_callback Channel.placement (some (scs_value_t.dplacement p)) t).map
              (fun t1 => t1.orientation_available) = some t.orientation_available
        ∧ (channel_callback Channel.acc (some (scs_value_t.fvector v)) t).map
              (fun t1 => t1.orientation_available) = some t.orientation_available)
      ∧ (dispatch g (HostCall.channel Channel.speed (some (scs_value_t.float f))) =
            some ({ g with telemetry := { g.telemetry with speed := f } }, [])
        ∧ dispatch g (HostCall.channel Channel.rpm (some (scs_value_t.float f))) =
            some ({ g with telemetry := { g.telemetry with rpm := f } }, [])
        ∧ dispatch g (HostCall.channel Channel.gear (some (scs_value_t.s32 i))) =
            some ({ g with telemetry := { g.telemetry with gear := i } }, [])
        ∧ dispatch g (HostCall.channel Channel.engine_running (some (scs_value_t.bool b))) =
            some ({ g with telemetry := { g.telemetry with engine_running := b } }, [])
        ∧ dispatch g (HostCall.channel Channel.trailer_connected (some (scs_value_t.bool b))) =
            some ({ g with telemetry := { g.telemetry with trailer_connected := b } }, [])
        ∧ dispatch g (HostCall.channel Channel.parking_brake (some (scs_value_t.bool b))) =
            some ({ g with telemetry := { g.telemetry with parking_brake := b } }, [])
        ∧ dispatch g (HostCall.channel Channel.placement (some (scs_value_t.dplacement p))) =
            some ({ g with telemetry := { g.telemetry with placement := p } }, [])
        ∧ dispatch g (HostCall.channel Channel.acc (some (scs_value_t.fvector v))) =
            some ({ g with telemetry := { g.telemetry with acc := v } }, [])) :=
  ⟨⟨rfl, rfl, rfl, rfl, rfl, rfl⟩, ⟨rfl, rfl, rfl, rfl, rfl, rfl, rfl, rfl⟩,
    ⟨rfl, rfl, rfl, rfl, rfl, rfl, rfl, rfl⟩, ⟨rfl, rfl, rfl, rfl, rfl, rfl, rfl, rfl⟩⟩

end Telemetry
